import Mathlib

/-!
Verification of the pycargoebuild core (src/pycargoebuild/cargo.py and
src/pycargoebuild/ebuild.py) against its natural-language specification.

Strings are modelled as `List Char` (one entry per Python character), so
Python slice arithmetic (`s[a:b]`, `s[:-6]`) maps to `List.take`/`List.drop`
with truncating `Nat` subtraction, which matches Python slicing on all the
boundary cases used here.  Python exceptions are modelled with `Except`.
External collaborators (tomllib parsing, tarfile extraction, the
license_expression library and the repository modules pycargoebuild.format /
pycargoebuild.license that are not under src/) are modelled from the spec and
marked as such in their doc comments; everything else is translated directly
from the source.
-/

instance {ε α : Type} [DecidableEq ε] [DecidableEq α] : DecidableEq (Except ε α) := fun x y =>
  match x, y with
  | .error a, .error b =>
    if h : a = b then .isTrue (by rw [h])
    else .isFalse (fun hc => by injection hc with h2; exact h h2)
  | .error _, .ok _ => .isFalse (fun hc => Except.noConfusion hc)
  | .ok _, .error _ => .isFalse (fun hc => Except.noConfusion hc)
  | .ok a, .ok b =>
    if h : a = b then .isTrue (by rw [h])
    else .isFalse (fun hc => by injection hc with h2; exact h h2)

/-- Python exceptions raised by the embedded functions.
`assertionFailed` is a failed `assert` statement; `keyError k` is the
`KeyError` raised by a dict lookup `d["k"]`; `manifestNotFound` is the
`RuntimeError("Cargo.toml not found in ...")` of `get_license_from_crate`;
`missingLicense` is the `RuntimeError("Create ... does not specify a
license!")` of `get_license_from_crate`. -/
inductive PyErr where
  | assertionFailed
  | keyError (key : List Char)
  | manifestNotFound
  | missingLicense
deriving DecidableEq

/-- The `[package]` table of a parsed `Cargo.toml`, as the source reads it
through `tomllib.load` (TOML parsing itself is an external collaborator per
spec section 1, so the table arrives already structured).  Only the keys the
source accesses are modelled; values are strings, which covers every claim
(a non-string value would fail inside `cargo_to_spdx` either way). -/
structure PackageTable where
  name : Option (List Char)
  version : Option (List Char)
  license : Option (List Char)
  license_file : Option (List Char)
  description : Option (List Char)
  homepage : Option (List Char)
deriving DecidableEq

/-- The `PackageMetadata` NamedTuple of cargo.py.  The Python annotation of
`license` is `str`, but `get_license_from_crate` in ebuild.py tests the field
against `None`, so the model keeps the `Option` view; `get_package_metadata`
only ever constructs `some`. -/
structure PackageMetadata where
  name : List Char
  version : List Char
  license : Option (List Char)
  description : Option (List Char)
  homepage : Option (List Char)
deriving DecidableEq

/-- cargo.py `cargo_to_spdx`: `license_str.replace("/", " OR ")`.
Since the pattern is the single character `/`, Python `str.replace` is
exactly this character-wise substitution. -/
def cargo_to_spdx : List Char → List Char
  | [] => []
  | c :: rest => (if c = '/' then " OR ".data else [c]) ++ cargo_to_spdx rest

/-- cargo.py `get_package_metadata`: asserts that `license_file` is absent,
then builds the metadata, normalizing the license with `cargo_to_spdx`.
Python evaluates the constructor arguments left to right, so a missing
required key raises `KeyError` in the order name, version, license;
`description` and `homepage` use `.get` and never raise. -/
def get_package_metadata (t : PackageTable) : Except PyErr PackageMetadata :=
  if t.license_file.isSome then .error .assertionFailed
  else
    match t.name, t.version, t.license with
    | none, _, _ => .error (.keyError "name".data)
    | some _, none, _ => .error (.keyError "version".data)
    | some _, some _, none => .error (.keyError "license".data)
    | some n, some v, some l =>
      .ok { name := n, version := v, license := some (cargo_to_spdx l),
            description := t.description, homepage := t.homepage }

/-- Python `" AND ".join(...)`-style separator join. -/
def joinSep (sep : List Char) : List (List Char) → List Char
  | [] => []
  | [x] => x
  | x :: y :: rest => x ++ sep ++ joinSep sep (y :: rest)

/-- Python `set(...)` over strings, modelled as keep-first deduplication.
CPython set iteration order is hash-dependent; the claims settled here do not
depend on the order, only on the collection of distinct elements. -/
def pySet (l : List (List Char)) : List (List Char) :=
  l.foldl (fun acc x => if x ∈ acc then acc else acc ++ [x]) []

/-- ebuild.py `get_CRATES`: empty input renders as the empty string; otherwise
a newline, then one tab-indented line per crate file with the last six
characters of the file name stripped unconditionally (`p.name[:-6]`, which is
`List.take (length - 6)` with truncating subtraction, exactly Python's
slicing), then a final newline. -/
def get_CRATES (crateFiles : List (List Char)) : List Char :=
  match crateFiles with
  | [] => []
  | _ :: _ =>
    '\n' :: (joinSep ['\n'] (crateFiles.map fun p => '\t' :: p.take (p.length - 6)) ++ ['\n'])

/-- A parsed SPDX license expression of the license_expression library.
Modelled from the spec: the library is an external dependency (and the
repository modules pycargoebuild.format / pycargoebuild.license are not under
src/), so the expression is kept as its text; spec section 2 treats the
engine as parse / combine / simplify / translate steps whose only behaviour
relevant to the claims is captured below. -/
structure SpdxExpr where
  text : List Char
deriving DecidableEq

/-- Modelled from the spec: `license_expression.get_spdx_licensing().parse`.
Per spec section 4.2, combining an empty set yields an explicit "no licenses"
result: in the source this is `parse` returning `None` on token-free input,
which the caller maps to the empty string.  Non-empty input parses to a
value; identifier validation (InvalidExpression) is not exercised by any
claim and is not modelled. -/
def spdx_parse (s : List Char) : Option SpdxExpr :=
  if s = [] then none else some ⟨s⟩

/-- Modelled from the spec: `LicenseExpression.simplify` (spec section 4.2),
a logically equivalent minimal form.  No claim settled here depends on the
simplified shape, so the expression is kept as is. -/
def spdx_simplify (e : SpdxExpr) : SpdxExpr := e

/-- Modelled from the spec: `spdx_to_ebuild` from pycargoebuild.license (not
under src/), the translate step of spec section 4.2.  No claim depends on the
target vocabulary, so identifiers are kept as is. -/
def spdx_to_ebuild (e : SpdxExpr) : List Char := e.text

/-- Modelled from the spec: `format_license_var` from pycargoebuild.format
(not under src/), the render step of spec section 4.4.  The claims settled
here only use that its output is a deterministic function of the expression
text; the single-line form is rendered verbatim. -/
def format_license_var (s : List Char) : List Char := s

/-- ebuild.py `get_package_LICENSE`: parse the package license, translate and
format it; the `license is not None` guard mirrors the source. -/
def get_package_LICENSE (pm : PackageMetadata) : List Char :=
  match pm.license with
  | some l =>
    match spdx_parse l with
    | some e => format_license_var (spdx_to_ebuild e)
    | none => []
  | none => []

/-- A gzip tar archive, modelled from the spec as a finite map from member
path to the parsed `[package]` table of the member (tarfile and tomllib are
external collaborators per spec section 1).  A missing member yields `none`,
which `get_license_from_crate` reports as its Cargo.toml-not-found failure
(in CPython a wholly absent member raises `KeyError` inside tarfile while a
non-regular member makes `extractfile` return `None`; both are
manifest-not-found failures and are merged here). -/
def lookupMember (key : List Char) : List (List Char × PackageTable) → Option PackageTable
  | [] => none
  | (k, v) :: rest => if k = key then some v else lookupMember key rest

/-- ebuild.py `get_license_from_crate`: asserts that the file name ends in
`.crate`, opens the archive, reads `<name minus 6 chars>/Cargo.toml`, parses
the package metadata, and fails with `missingLicense` when the license field
is `None` (a branch that `get_package_metadata` makes unreachable). -/
def get_license_from_crate (pathName : List Char)
    (archive : List (List Char × PackageTable)) : Except PyErr (List Char) :=
  if (".crate".data).isSuffixOf pathName then
    match lookupMember (pathName.take (pathName.length - 6) ++ "/Cargo.toml".data) archive with
    | none => .error .manifestNotFound
    | some t =>
      match get_package_metadata t with
      | .error e => .error e
      | .ok md =>
        match md.license with
        | none => .error .missingLicense
        | some l => .ok l
  else .error .assertionFailed

/-- ebuild.py `get_crate_LICENSE`, starting from the per-crate license
strings (the results of `get_license_from_crate`; the archive reads
themselves are file I/O and are threaded in by `mapLicenses` below):
deduplicate, conjoin each parenthesized operand with `" AND "`, parse, and
when the parse yields the no-licenses result return the empty string;
otherwise simplify, translate, format, and prepend a space unless the
rendered form starts with a newline (source lines 100-106). -/
def get_crate_LICENSE (crateLicenses : List (List Char)) : List Char :=
  let distinct := pySet crateLicenses
  let combined := joinSep " AND ".data (distinct.map fun x => "( ".data ++ x ++ " )".data)
  match spdx_parse combined with
  | none => []
  | some parsed =>
    let s := format_license_var (spdx_to_ebuild (spdx_simplify parsed))
    if s.head? = some '\n' then s else ' ' :: s

/-- The evaluation of `set(map(get_license_from_crate, crate_files))`: the
archives are read left to right and the first exception propagates. -/
def mapLicenses : List (List Char × List (List Char × PackageTable)) →
    Except PyErr (List (List Char))
  | [] => .ok []
  | f :: rest =>
    match get_license_from_crate f.1 f.2 with
    | .error e => .error e
    | .ok l =>
      match mapLicenses rest with
      | .error e => .error e
      | .ok ls => .ok (l :: ls)

/-- `get_crate_LICENSE` as invoked on crate files: read every archive, then
render the combined license. -/
def get_crate_LICENSE_of_files
    (files : List (List Char × List (List Char × PackageTable))) :
    Except PyErr (List Char) :=
  (mapLicenses files).map get_crate_LICENSE

/-- Modelled from the spec: the program version string `__version__` (the
package __init__ module is not under src/).  A fixed constant of the running
program; its value is irrelevant to every claim. -/
def pycargoebuild_version : List Char := "0".data

/-- ebuild.py `EBUILD_TEMPLATE` with its seven placeholders filled in, written
as explicit concatenation of the template's literal segments. -/
def EBUILD_TEMPLATE_fill (year prog_version crates description homepage
    pkg_license crate_licenses : List Char) : List Char :=
  "# Copyright ".data ++ year ++
  " Gentoo Authors\n# Distributed under the terms of the GNU General Public License v2\n\n# Autogenerated by pycargoebuild ".data ++
  prog_version ++
  "\n\nEAPI=8\n\nCRATES=\"".data ++ crates ++
  "\"\n\ninherit cargo\n\nDESCRIPTION=\"".data ++ description ++
  "\"\nHOMEPAGE=\"".data ++ homepage ++
  "\"\nSRC_URI=\"\n\t$(cargo_crate_uris)\n\"\n\nLICENSE=\"".data ++ pkg_license ++
  "\"\n# Dependent crate licenses\nLICENSE+=\"".data ++ crate_licenses ++
  "\"\nSLOT=\"0\"\nKEYWORDS=\"~amd64\"\n".data

/-- ebuild.py `get_ebuild`.  Two inputs that the Python function obtains
implicitly are made explicit: `crateLicenses`, the per-crate license strings
that `get_crate_LICENSE` reads from the crate archives (file I/O), and
`year`, the value of `datetime.date.today().year` that the source reads from
the ambient process clock at call time.  `description or ""` and
`homepage or ""` map `None` (and the empty string) to the empty string. -/
def get_ebuild (pm : PackageMetadata) (crateFiles crateLicenses : List (List Char))
    (year : Nat) : List Char :=
  EBUILD_TEMPLATE_fill (Nat.repr year).data pycargoebuild_version
    (get_CRATES crateFiles) (pm.description.getD []) (pm.homepage.getD [])
    (get_package_LICENSE pm) (get_crate_LICENSE crateLicenses)

/-- Everything `get_ebuild` renders after the copyright year: a function of
the explicit arguments only. -/
def ebuild_after_year (pm : PackageMetadata) (crateFiles crateLicenses : List (List Char)) :
    List Char :=
  " Gentoo Authors\n# Distributed under the terms of the GNU General Public License v2\n\n# Autogenerated by pycargoebuild ".data ++
  pycargoebuild_version ++
  "\n\nEAPI=8\n\nCRATES=\"".data ++ get_CRATES crateFiles ++
  "\"\n\ninherit cargo\n\nDESCRIPTION=\"".data ++ (pm.description.getD []) ++
  "\"\nHOMEPAGE=\"".data ++ (pm.homepage.getD []) ++
  "\"\nSRC_URI=\"\n\t$(cargo_crate_uris)\n\"\n\nLICENSE=\"".data ++ get_package_LICENSE pm ++
  "\"\n# Dependent crate licenses\nLICENSE+=\"".data ++ get_crate_LICENSE crateLicenses ++
  "\"\nSLOT=\"0\"\nKEYWORDS=\"~amd64\"\n".data

/-- `get_ebuild` as invoked on crate files: read every archive (first
exception propagates, so no recipe text is produced on failure), then fill
the template. -/
def get_ebuild_of_files (pm : PackageMetadata)
    (files : List (List Char × List (List Char × PackageTable))) (year : Nat) :
    Except PyErr (List Char) :=
  (mapLicenses files).map fun ls => get_ebuild pm (files.map Prod.fst) ls year

/-- A match of one of the two region regexes: `start0, end0` delimit the
whole match (`m.start(0), m.end(0)`), `start1, end1` the captured value
(`m.start(1), m.end(1)`). -/
structure RegionMatch where
  start0 : Nat
  end0 : Nat
  start1 : Nat
  end1 : Nat
deriving DecidableEq

/-- `re.MULTILINE` caret: position 0 or just after a newline. -/
def atLineStartB (s : List Char) (i : Nat) : Bool :=
  decide (i = 0) ||
    (match s[i - 1]? with
     | some c => c = '\n'
     | none => false)

/-- `re.MULTILINE` dollar: end of the string or just before a newline. -/
def atLineEndB (s : List Char) (k : Nat) : Bool :=
  decide (k = s.length) ||
    (match s[k]? with
     | some c => c = '\n'
     | none => false)

/-- The backtracking search for the lazy tail `(.*?)"$` of both region
regexes under `re.DOTALL`: the smallest `j` at or after the start of the
capture such that `s[j]` is a double quote followed by a line end.  `fuel`
bounds the scan (callers pass enough to reach the end of the string). -/
def findQuoteEol (s : List Char) : Nat → Nat → Option Nat
  | 0, _ => none
  | fuel + 1, j =>
    match s[j]? with
    | none => none
    | some c =>
      if c = '"' && atLineEndB s (j + 1) then some j
      else findQuoteEol s fuel (j + 1)

/-- Try to match `^<lit>(.*?)"$` (flags `DOTALL | MULTILINE`) at position
`i`: the position must be a line start, the literal prefix must match, and
the lazy capture extends to the nearest quote-then-line-end. -/
def matchRegionAt (lit : List Char) (s : List Char) (i : Nat) : Option RegionMatch :=
  if atLineStartB s i && lit.isPrefixOf (s.drop i) then
    match findQuoteEol s (s.length - (i + lit.length) + 1) (i + lit.length) with
    | some j => some ⟨i, j + 1, i + lit.length, j⟩
    | none => none
  else none

/-- The literal part of `crates_re`, `^CRATES="(.*?)"$`. -/
def litCrates : List Char := "CRATES=\"".data

/-- The literal part of `license_re`,
`^# Dependent crate licenses\nLICENSE[+]="(.*?)"$`. -/
def litLicense : List Char := "# Dependent crate licenses\nLICENSE+=\"".data

/-- `re.finditer`: scan positions left to right, resuming after the end of
each (non-empty) match.  Every match of these patterns is non-empty, so
`s.length + 1` steps of fuel always suffice. -/
def finditerFrom (lit : List Char) (s : List Char) : Nat → Nat → List RegionMatch
  | 0, _ => []
  | fuel + 1, i =>
    match matchRegionAt lit s i with
    | some m => m :: finditerFrom lit s fuel m.end0
    | none => finditerFrom lit s fuel (i + 1)

/-- `list(crates_re.finditer(ebuild))`. -/
def crates_matches (s : List Char) : List RegionMatch :=
  finditerFrom litCrates s (s.length + 1) 0

/-- `list(license_re.finditer(ebuild))`. -/
def license_matches (s : List Char) : List RegionMatch :=
  finditerFrom litLicense s (s.length + 1) 0

/-- The `RuntimeError`s of `update_ebuild`, distinguished by message:
`cratesNotFound` is "CRATES variable not found in ebuild", `multipleCrates`
is "Multiple CRATES variables found in ebuild", `licenseNotFound` is "Crate
LICENSE+= not found in ebuild (or missing marker comment)", `multipleLicense`
is "Multiple crate LICENSE+= found in ebuild", and `overlappingRegions` is
"CRATES and LICENSE+= overlap!". -/
inductive UpdateError where
  | cratesNotFound
  | multipleCrates
  | licenseNotFound
  | multipleLicense
  | overlappingRegions
deriving DecidableEq

/-- ebuild.py `update_ebuild`, with the two freshly rendered values passed in
(`newCrates` stands for the call `get_CRATES(crate_files)` and `newLicense`
for `get_crate_LICENSE(crate_files)`, whose archive reads are file I/O; see
`update_ebuild` below).  Region scanning, the multiplicity checks, the
overlap check and the final splice follow source lines 132-167 clause by
clause, including the Python slices `ebuild[first_match_end:
second_match_start]` and `ebuild[second_match_end:]` which truncate exactly
like `List.drop`/`List.take` with `Nat` subtraction. -/
def update_ebuild_core (ebuild newCrates newLicense : List Char) :
    Except UpdateError (List Char) :=
  match crates_matches ebuild with
  | [] => .error .cratesNotFound
  | _ :: _ :: _ => .error .multipleCrates
  | [crates] =>
    match license_matches ebuild with
    | [] => .error .licenseNotFound
    | _ :: _ :: _ => .error .multipleLicense
    | [license] =>
      let firstStart := min crates.start1 license.start1
      let firstEnd := min crates.end1 license.end1
      let secondStart := max crates.start1 license.start1
      let secondEnd := max crates.end1 license.end1
      let spliced :=
        ebuild.take firstStart ++ newCrates ++
        ((ebuild.drop firstEnd).take (secondStart - firstEnd)) ++ newLicense ++
        ebuild.drop secondEnd
      if crates.start0 < license.start0 then
        if crates.end0 > license.start0 then .error .overlappingRegions
        else .ok spliced
      else
        if crates.end0 < license.start0 then .error .overlappingRegions
        else .ok spliced

/-- ebuild.py `update_ebuild` as invoked: the rendered values are computed by
`get_CRATES` on the crate file names and `get_crate_LICENSE` on the per-crate
license strings those files contain. -/
def update_ebuild (ebuild : List Char) (crateFiles crateLicenses : List (List Char)) :
    Except UpdateError (List Char) :=
  update_ebuild_core ebuild (get_CRATES crateFiles) (get_crate_LICENSE crateLicenses)

/-- An ebuild document in which the license region starts first (at 0) and
the CRATES match, spanning positions 41-53, lies inside the license match,
which spans positions 0-53: the two matched ranges intersect. -/
def docOverlapLF : List Char :=
  "# Dependent crate licenses\nLICENSE+=\"foo\nCRATES=\"bar\"\n".data

/-- An ebuild document with the license region first whose captured values
are exactly the values rendered for the crate file `foo-1.0.crate` with
license `MIT`: captured license value ` ( MIT )`, captured CRATES value
a newline, a tab-indented `foo-1.0`, and a newline. -/
def docRoundtrip : List Char :=
  "# Dependent crate licenses\nLICENSE+=\" ( MIT )\"\nCRATES=\"\n\tfoo-1.0\n\"\n".data

/-- An ebuild document with the license region first (captured value `old`)
and the CRATES region second. -/
def docLicenseFirst : List Char :=
  "# Dependent crate licenses\nLICENSE+=\"old\"\nCRATES=\"\n\tbar-2.0\n\"\n".data

/-- An ebuild document with two CRATES assignments and no license region. -/
def docDupCrates : List Char := "CRATES=\"a\"\nCRATES=\"b\"\n".data

/-- A sample package metadata value. -/
def pmExample : PackageMetadata :=
  { name := "pkg".data, version := "1".data, license := some "MIT".data,
    description := none, homepage := none }

lemma cargo_to_spdx_append_eq (s t : List Char) :
    cargo_to_spdx (s ++ t) = cargo_to_spdx s ++ cargo_to_spdx t := by
  induction s with
  | nil => rfl
  | cons c cs ih =>
    show (if c = '/' then " OR ".data else [c]) ++ cargo_to_spdx (cs ++ t) =
      ((if c = '/' then " OR ".data else [c]) ++ cargo_to_spdx cs) ++ cargo_to_spdx t
    rw [ih, List.append_assoc]

lemma slash_not_mem_cargo_to_spdx (s : List Char) : ¬ ('/' ∈ cargo_to_spdx s) := by
  induction s with
  | nil => simp [cargo_to_spdx]
  | cons c cs ih =>
    show ¬ ('/' ∈ (if c = '/' then " OR ".data else [c]) ++ cargo_to_spdx cs)
    rw [List.mem_append]
    rintro (h1 | h2)
    · by_cases h : c = '/'
      · rw [if_pos h] at h1
        revert h1
        decide
      · rw [if_neg h] at h1
        exact h (List.mem_singleton.mp h1).symm
    · exact ih h2

lemma cargo_to_spdx_id_of_no_slash (s : List Char) (h : ¬ ('/' ∈ s)) :
    cargo_to_spdx s = s := by
  induction s with
  | nil => rfl
  | cons c cs ih =>
    have h1 : ¬ (c = '/') := fun hc => h (by rw [hc]; exact List.mem_cons_self _ _)
    have h2 : ¬ ('/' ∈ cs) := fun hc => h (List.mem_cons_of_mem _ hc)
    show (if c = '/' then " OR ".data else [c]) ++ cargo_to_spdx cs = c :: cs
    rw [if_neg h1, ih h2]
    rfl

/-- C5: the license normalizer `cargo_to_spdx` is total (a Lean function) and
idempotent; it is the unique string homomorphism that replaces the single
character `/` by ` OR ` and keeps every other character, and its output never
contains `/` (which is why a second application is the identity). -/
theorem c5_cargo_to_spdx_idempotent (s t : List Char) (c : Char) :
    cargo_to_spdx (cargo_to_spdx s) = cargo_to_spdx s ∧
    cargo_to_spdx (s ++ t) = cargo_to_spdx s ++ cargo_to_spdx t ∧
    cargo_to_spdx [c] = (if c = '/' then " OR ".data else [c]) ∧
    (cargo_to_spdx s).count '/' = 0 := by
  refine ⟨?_, cargo_to_spdx_append_eq s t, ?_, ?_⟩
  · exact cargo_to_spdx_id_of_no_slash _ (slash_not_mem_cargo_to_spdx s)
  · show (if c = '/' then " OR ".data else [c]) ++ cargo_to_spdx [] =
      (if c = '/' then " OR ".data else [c])
    rw [show cargo_to_spdx [] = [] from rfl, List.append_nil]
  · exact List.count_eq_zero.mpr (slash_not_mem_cargo_to_spdx s)

/-- C6: combining an empty collection of per-crate license expressions is not
an error: the conjunction of no operands is the empty string, `spdx_parse`
maps it to the explicit no-licenses result, and `get_crate_LICENSE` renders
that as the empty string, both on the license strings and end to end on an
empty list of crate files. -/
theorem c6_empty_crate_license :
    get_crate_LICENSE [] = [] ∧
    spdx_parse (joinSep " AND ".data []) = none ∧
    get_crate_LICENSE_of_files [] = .ok [] := by
  refine ⟨rfl, rfl, rfl⟩

/-- C8: `get_package_metadata` fails (with the failed assertion) on every
package table that contains a `license_file` key, whatever the other fields
hold; on every table without that key whose required fields name, version and
license are present it returns the metadata with the license normalized by
`cargo_to_spdx` and the optional fields passed through. -/
theorem c8_license_file_aborts (t : PackageTable) (lf n v l : List Char)
    (d h : Option (List Char)) :
    get_package_metadata { t with license_file := some lf } = .error .assertionFailed ∧
    get_package_metadata
        { name := some n, version := some v, license := some l,
          license_file := none, description := d, homepage := h } =
      .ok { name := n, version := v, license := some (cargo_to_spdx l),
            description := d, homepage := h } := by
  constructor
  · show get_package_metadata
      { name := t.name, version := t.version, license := t.license,
        license_file := some lf, description := t.description,
        homepage := t.homepage } = .error .assertionFailed
    rfl
  · rfl

/-- C1: in `docOverlapLF` both region matchers match exactly once, the
license match (positions 0-53) starts first and the CRATES match (positions
41-53) lies inside it, so the two character ranges intersect; yet
`update_ebuild` raises no overlap error and returns a spliced document,
because the overlap condition of the branch where the license region starts
first (`crates.end(0) < license.start(0)`) can never hold.  The claimed
rejection happens only when the CRATES region starts first. -/
theorem c1_overlap_license_first_not_rejected :
    crates_matches docOverlapLF = [⟨41, 53, 49, 52⟩] ∧
    license_matches docOverlapLF = [⟨0, 53, 37, 52⟩] ∧
    update_ebuild docOverlapLF [] [] =
      .ok "# Dependent crate licenses\nLICENSE+=\"\"\n".data := by
  refine ⟨by decide, by decide, by decide⟩

/-- C2: in `docLicenseFirst` the license region (match at 0-41, captured
value `old` at 37-40) precedes the CRATES region (match at 42-61, captured
value at 50-60), both matching exactly once and not overlapping; splicing
for the crate file `bar-2.0.crate` with license `Apache-2.0` puts the
rendered CRATES value into the license region's captured-value span and the
rendered license value into the CRATES region's span: the values follow
variable identity, not document position. -/
theorem c2_splice_uses_variable_order :
    license_matches docLicenseFirst = [⟨0, 41, 37, 40⟩] ∧
    crates_matches docLicenseFirst = [⟨42, 61, 50, 60⟩] ∧
    get_CRATES ["bar-2.0.crate".data] = "\n\tbar-2.0\n".data ∧
    get_crate_LICENSE ["Apache-2.0".data] = " ( Apache-2.0 )".data ∧
    update_ebuild docLicenseFirst ["bar-2.0.crate".data] ["Apache-2.0".data] =
      .ok "# Dependent crate licenses\nLICENSE+=\"\n\tbar-2.0\n\"\nCRATES=\" ( Apache-2.0 )\"\n".data := by
  refine ⟨by decide, by decide, by decide, by decide, by decide⟩

/-- C3: in `docRoundtrip` both regions match exactly once and do not overlap
(the license region first, captured value at 37-45, the CRATES region second,
captured value at 55-65); the freshly rendered values for the crate file
`foo-1.0.crate` with license `MIT` equal the two captured values exactly, yet
`update_ebuild` is not a no-op: it returns a document that differs from its
input (the two values change places), because the splice inserts the CRATES
value into the positionally first span. -/
theorem c3_roundtrip_violated :
    crates_matches docRoundtrip = [⟨47, 66, 55, 65⟩] ∧
    license_matches docRoundtrip = [⟨0, 46, 37, 45⟩] ∧
    get_CRATES ["foo-1.0.crate".data] = "\n\tfoo-1.0\n".data ∧
    get_crate_LICENSE ["MIT".data] = " ( MIT )".data ∧
    (docRoundtrip.drop 55).take 10 = "\n\tfoo-1.0\n".data ∧
    (docRoundtrip.drop 37).take 8 = " ( MIT )".data ∧
    update_ebuild docRoundtrip ["foo-1.0.crate".data] ["MIT".data] =
      .ok "# Dependent crate licenses\nLICENSE+=\"\n\tfoo-1.0\n\"\nCRATES=\" ( MIT )\"\n".data ∧
    ("# Dependent crate licenses\nLICENSE+=\"\n\tfoo-1.0\n\"\nCRATES=\" ( MIT )\"\n".data : List Char)
      ≠ docRoundtrip := by
  refine ⟨by decide, by decide, by decide, by decide, by decide, by decide, by decide, by decide⟩

/-- C4 counterexample: in `docDupCrates` the license matcher yields zero
matches (so the claim requires a RegionNotFound failure), but the CRATES
matcher yields two matches and `update_ebuild` reports the DuplicateRegion
error for CRATES instead: the zero-match check for the license region is
never reached. -/
theorem c4_error_precedence_cex :
    license_matches docDupCrates = [] ∧
    (crates_matches docDupCrates).length = 2 ∧
    update_ebuild docDupCrates [] [] = .error .multipleCrates := by
  refine ⟨by decide, by decide, by decide⟩

/-- C4 as amended: the scan checks are applied in a fixed order (CRATES zero
matches, CRATES multiple, license zero, license multiple), so each error
characterizes the first failing check, not "either matcher": RegionNotFound
for CRATES exactly when the CRATES matcher yields zero matches;
DuplicateRegion for CRATES exactly when it yields more than one;
RegionNotFound for the license region exactly when the CRATES matcher yields
exactly one match and the license matcher zero; DuplicateRegion for the
license region exactly when CRATES yields exactly one and the license
matcher more than one; and the function proceeds past scanning (to the
overlap check and the splice) exactly when each matcher yields exactly one
match. -/
theorem c4_scan_error_characterization (e : List Char) (cf cl : List (List Char)) :
    (update_ebuild e cf cl = .error .cratesNotFound ↔ crates_matches e = []) ∧
    (update_ebuild e cf cl = .error .multipleCrates ↔ 2 ≤ (crates_matches e).length) ∧
    (update_ebuild e cf cl = .error .licenseNotFound ↔
      (crates_matches e).length = 1 ∧ license_matches e = []) ∧
    (update_ebuild e cf cl = .error .multipleLicense ↔
      (crates_matches e).length = 1 ∧ 2 ≤ (license_matches e).length) ∧
    ((update_ebuild e cf cl = .error .overlappingRegions ∨
      ∃ out, update_ebuild e cf cl = .ok out) ↔
      (crates_matches e).length = 1 ∧ (license_matches e).length = 1) := by
  rcases hc : crates_matches e with _ | ⟨a, _ | ⟨b, tl⟩⟩ <;>
    rcases hl : license_matches e with _ | ⟨c, _ | ⟨d, tl2⟩⟩ <;>
      simp [update_ebuild, update_ebuild_core, hc, hl]
  split_ifs <;> simp

/-- C7 counterexample: `get_ebuild` is not a function of the package metadata
and crate data alone: the copyright year is read from the ambient process
clock (`datetime.date.today().year`, the explicit `year` parameter of the
embedding), and two calls with identical explicit arguments but different
ambient years produce different recipe text. -/
theorem c7_year_ambient_cex :
    (get_ebuild pmExample [] [] 2022).take 16 = "# Copyright 2022".data ∧
    (get_ebuild pmExample [] [] 2023).take 16 = "# Copyright 2023".data ∧
    get_ebuild pmExample [] [] 2022 ≠ get_ebuild pmExample [] [] 2023 := by
  refine ⟨by decide, by decide, by decide⟩

/-- C7 as amended: the ambient-state dependence of `get_ebuild` is exactly
the copyright year: the output is the literal `# Copyright `, the decimal
rendering of the clock year, and a remainder `ebuild_after_year` that is a
function only of the explicit arguments, so rendering is deterministic once
the clock reading is fixed. -/
theorem c7_year_localized (pm : PackageMetadata) (cf cl : List (List Char)) (y : Nat) :
    get_ebuild pm cf cl y =
      "# Copyright ".data ++ (Nat.repr y).data ++ ebuild_after_year pm cf cl := by
  simp only [get_ebuild, EBUILD_TEMPLATE_fill, ebuild_after_year, List.append_assoc]

/-- A `[package]` table with name and version but no license key. -/
def tableNoLicense : PackageTable :=
  { name := some "foo".data, version := some "1.0".data, license := none,
    license_file := none, description := none, homepage := none }

/-- A crate archive whose embedded manifest has no license key. -/
def archiveNoLicense : List (List Char × PackageTable) :=
  [("foo-1.0/Cargo.toml".data, tableNoLicense)]

lemma get_package_metadata_ne_manifestNotFound (t : PackageTable) :
    get_package_metadata t ≠ .error .manifestNotFound := by
  unfold get_package_metadata
  split
  · simp
  · split <;> simp

/-- C9 counterexample: for the crate `foo-1.0.crate` whose embedded manifest
has no license key, the failure is the `KeyError` raised inside
`get_package_metadata` when it reads `pkg_meta["license"]`, not the per-crate
MissingLicense check of `get_license_from_crate` (which tests the already
constructed metadata and can never fire). -/
theorem c9_missing_license_cex :
    get_package_metadata tableNoLicense = .error (.keyError "license".data) ∧
    get_license_from_crate "foo-1.0.crate".data archiveNoLicense =
      .error (.keyError "license".data) ∧
    PyErr.keyError "license".data ≠ PyErr.missingLicense := by
  refine ⟨by decide, by decide, by decide⟩

/-- C9 as amended: for every crate file whose embedded manifest has name and
version but no license key (and no license_file key), collection fails with
`KeyError("license")` from the metadata read, the unreachable per-crate
MissingLicense check never being the failure, and the error propagates
through `get_ebuild` so no recipe text is produced. -/
theorem c9_missing_license_keyerror (nm : List Char)
    (archive : List (List Char × PackageTable)) (t : PackageTable)
    (n v : List Char) (pm : PackageMetadata) (y : Nat)
    (hsuf : (".crate".data).isSuffixOf nm = true)
    (hmem : lookupMember (nm.take (nm.length - 6) ++ "/Cargo.toml".data) archive = some t)
    (hlf : t.license_file = none) (hn : t.name = some n) (hv : t.version = some v)
    (hlic : t.license = none) :
    get_license_from_crate nm archive = .error (.keyError "license".data) ∧
    get_ebuild_of_files pm [(nm, archive)] y = .error (.keyError "license".data) := by
  have hgpm : get_package_metadata t = .error (.keyError "license".data) := by
    simp [get_package_metadata, hlf, hn, hv, hlic]
  have h1 : get_license_from_crate nm archive = .error (.keyError "license".data) := by
    simp [get_license_from_crate, hsuf, hmem, hgpm]
  refine ⟨h1, ?_⟩
  simp [get_ebuild_of_files, mapLicenses, h1, Except.map]

theorem c9_missing_license_keyerror_witness :
    (".crate".data).isSuffixOf "foo-1.0.crate".data = true ∧
    lookupMember ("foo-1.0.crate".data.take ("foo-1.0.crate".data.length - 6) ++
      "/Cargo.toml".data) archiveNoLicense = some tableNoLicense ∧
    tableNoLicense.license = none ∧
    get_license_from_crate "foo-1.0.crate".data archiveNoLicense =
      .error (.keyError "license".data) ∧
    get_ebuild_of_files pmExample [("foo-1.0.crate".data, archiveNoLicense)] 2023 =
      .error (.keyError "license".data) := by
  have h := c9_missing_license_keyerror "foo-1.0.crate".data archiveNoLicense
    tableNoLicense "foo".data "1.0".data pmExample 2023
    (by decide) (by decide) rfl rfl rfl rfl
  exact ⟨by decide, by decide, rfl, h.1, h.2⟩

/-- C10: `get_license_from_crate` requires the file name to end in `.crate`:
for any other name it fails on the assertion for every archive (the archive
is never consulted); under that precondition the embedded manifest is looked
up at exactly the file name minus its six-character suffix followed by
`/Cargo.toml`, and the Cargo.toml-not-found failure occurs exactly when that
member is absent.  `get_CRATES`, by contrast, strips the last six characters
of every file name unconditionally, with no suffix check. -/
theorem c10_crate_suffix_contract (nm : List Char)
    (archive : List (List Char × PackageTable)) :
    ((".crate".data).isSuffixOf nm = false →
      get_license_from_crate nm archive = .error .assertionFailed) ∧
    ((".crate".data).isSuffixOf nm = true →
      (get_license_from_crate nm archive = .error .manifestNotFound ↔
        lookupMember (nm.take (nm.length - 6) ++ "/Cargo.toml".data) archive = none)) ∧
    get_CRATES [nm] = ('\n' :: '\t' :: nm.take (nm.length - 6)) ++ ['\n'] := by
  refine ⟨?_, ?_, rfl⟩
  · intro h
    simp [get_license_from_crate, h]
  · intro h
    simp only [get_license_from_crate, h, if_true]
    cases hmem : lookupMember (nm.take (nm.length - 6) ++ "/Cargo.toml".data) archive with
    | none => simp
    | some t =>
      cases hgpm : get_package_metadata t with
      | error e =>
        have hne := get_package_metadata_ne_manifestNotFound t
        rw [hgpm] at hne
        have hne2 : e ≠ PyErr.manifestNotFound := fun he => hne (by rw [he])
        simp only [hgpm]
        constructor
        · intro hh
          injection hh with h2
          exact absurd h2 hne2
        · intro hh
          exact Option.noConfusion hh
      | ok md =>
        cases hml : md.license with
        | none => simp [hgpm, hml]
        | some l => simp [hgpm, hml]

theorem c10_crate_suffix_contract_witness :
    ((".crate".data).isSuffixOf "archive.zip".data = false ∧
      get_license_from_crate "archive.zip".data [] = .error .assertionFailed) ∧
    ((".crate".data).isSuffixOf "foo-1.0.crate".data = true ∧
      get_license_from_crate "foo-1.0.crate".data [] = .error .manifestNotFound) := by
  constructor
  · exact ⟨by decide, (c10_crate_suffix_contract "archive.zip".data []).1 (by decide)⟩
  · exact ⟨by decide,
      ((c10_crate_suffix_contract "foo-1.0.crate".data []).2.1 (by decide)).mpr (by decide)⟩
